import Mathlib

/-!
Verification development for the EOB depreciation engine
(`eob_tool/common.py`, `eob_tool/commercial.py`, `eob_tool/residential.py`).

The Python sources are shallowly embedded below: floats are modelled as
exact rationals (`ℚ`), Python ints as `ℤ`, Python dicts keyed by year as
association lists, and the engine's loops as fuel-indexed structural
recursions (the fuel is the exact iteration count of the Python `for`
ranges).  Names follow the source where Lean allows it.
-/

/-- Calendar date, compared lexicographically (year, month, day). -/
structure SDate where
  year : ℤ
  month : ℕ
  day : ℕ
deriving DecidableEq, Repr

/-- `a ≤ b` on dates, as Python compares `datetime.date` values. -/
def sdate_le (a b : SDate) : Bool :=
  decide (a.year < b.year ∨ (a.year = b.year ∧
    (a.month < b.month ∨ (a.month = b.month ∧ a.day ≤ b.day))))

/-- Integer-valued Excel ROUND at 0 digits (`common.excel_round(x, 0)`
followed by Python `int(...)`, which is exact on the integral result):
halves round away from zero. -/
def eround (x : ℚ) : ℤ :=
  if 0 ≤ x then ⌊x + 1/2⌋ else ⌈x - 1/2⌉

/-- `common.excel_round`: multiply by `10^ndigits`, round half away from
zero, divide back. -/
def excel_round (x : ℚ) (ndigits : ℕ) : ℚ :=
  let factor : ℚ := 10 ^ ndigits
  (eround (x * factor) : ℚ) / factor

/-- `common.clamp01`. -/
def clamp01 (x : ℚ) : ℚ := max 0 (min 1 x)

/-- Python `str.lower()` (ASCII case mapping, character by character). -/
def pyLower (s : String) : String := String.mk (s.data.map Char.toLower)

/-- Python `str.upper()`. -/
def pyUpper (s : String) : String := String.mk (s.data.map Char.toUpper)

/-- Python `str.strip()`: drop leading and trailing whitespace. -/
def pyStrip (s : String) : String :=
  String.mk (((s.data.dropWhile Char.isWhitespace).reverse.dropWhile
      Char.isWhitespace).reverse)

/-- Python slicing `s[n:]`. -/
def pyDrop (s : String) (n : ℕ) : String := String.mk (s.data.drop n)

/-- `common.BONUS_SCHEDULE`: ordered (start, end, rate) ranges. -/
def BONUS_SCHEDULE : List (SDate × SDate × ℚ) :=
  [ (⟨1900, 1, 1⟩, ⟨2001, 9, 10⟩, 0),
    (⟨2001, 9, 11⟩, ⟨2003, 5, 5⟩, 0.30),
    (⟨2003, 5, 6⟩, ⟨2004, 12, 31⟩, 0.50),
    (⟨2005, 1, 1⟩, ⟨2007, 12, 31⟩, 0),
    (⟨2008, 1, 1⟩, ⟨2010, 9, 8⟩, 0.50),
    (⟨2010, 9, 9⟩, ⟨2011, 12, 31⟩, 1),
    (⟨2012, 1, 1⟩, ⟨2017, 9, 27⟩, 0.50),
    (⟨2017, 9, 28⟩, ⟨2022, 12, 31⟩, 1),
    (⟨2023, 1, 1⟩, ⟨2023, 12, 31⟩, 0.80),
    (⟨2024, 1, 1⟩, ⟨2024, 12, 31⟩, 0.60),
    (⟨2025, 1, 1⟩, ⟨2025, 1, 19⟩, 0.40),
    (⟨2025, 1, 20⟩, ⟨2099, 12, 31⟩, 0) ]

/-- The loop body of the first `common.get_bonus_rate` definition
(lines 91–95): first range containing the date wins, else 0. -/
def bonus_lookup : List (SDate × SDate × ℚ) → SDate → ℚ
  | [], _ => 0
  | (s, e, r) :: rest, d =>
      if sdate_le s d && sdate_le d e then r else bonus_lookup rest d

/-- The FIRST `common.get_bonus_rate` definition (lines 91–95): the
date-sensitive schedule lookup.  In the Python module this definition is
shadowed by a later redefinition and is therefore dead code. -/
def get_bonus_rate_v1 (d : SDate) : ℚ := bonus_lookup BONUS_SCHEDULE d

/-- The SECOND `common.get_bonus_rate` definition (lines 158–161), the one
that is actually in effect at call sites (`compute_lookback`,
`compute_full_schedule`): a hardcoded constant 0.8 regardless of date. -/
def get_bonus_rate (_ : SDate) : ℚ := 0.8

/-- `common.MACRS_5_YEAR` (dict `.get(year_index, 0.0)` semantics). -/
def MACRS_5_YEAR (y : ℕ) : ℚ :=
  if y = 1 then 0.2000 else if y = 2 then 0.3200 else if y = 3 then 0.1920
  else if y = 4 then 0.1152 else if y = 5 then 0.1152 else if y = 6 then 0.0576
  else 0

/-- `common.MACRS_7_YEAR`. -/
def MACRS_7_YEAR (y : ℕ) : ℚ :=
  if y = 1 then 0.1429 else if y = 2 then 0.2449 else if y = 3 then 0.1749
  else if y = 4 then 0.1249 else if y = 5 then 0.0893 else if y = 6 then 0.0892
  else if y = 7 then 0.0893 else if y = 8 then 0.0446 else 0

/-- `common.MACRS_15_YEAR`. -/
def MACRS_15_YEAR (y : ℕ) : ℚ :=
  if y = 1 then 0.0500 else if y = 2 then 0.0950 else if y = 3 then 0.0855
  else if y = 4 then 0.0770 else if y = 5 then 0.0693 else if y = 6 then 0.0623
  else if y = 7 then 0.0590 else if y = 8 then 0.0590 else if y = 9 then 0.0591
  else if y = 10 then 0.0590 else if y = 11 then 0.0591 else if y = 12 then 0.0590
  else if y = 13 then 0.0591 else if y = 14 then 0.0590 else if y = 15 then 0.0591
  else if y = 16 then 0.0295 else 0

/-- `common.MACRS_27_5_YEAR`: month-indexed rows (year 1, years 2–27 flat,
year 28, year 29); a missing year index yields the empty list (Python
`table.get` returning `None`). -/
def MACRS_27_5_YEAR (y : ℕ) : List ℚ :=
  if y = 1 then
    [0.03485, 0.03182, 0.02879, 0.02576, 0.02273, 0.01970,
     0.01667, 0.01364, 0.01061, 0.00758, 0.00455, 0.00152]
  else if y = 28 then
    [0.01970, 0.02273, 0.02576, 0.02879, 0.03182, 0.03485,
     0.03636, 0.03636, 0.03636, 0.03636, 0.03636, 0.03636]
  else if y = 29 then
    [0, 0, 0, 0, 0, 0, 0.00152, 0.00455, 0.00758, 0.01061, 0.01364, 0.01667]
  else if 2 ≤ y ∧ y ≤ 27 then List.replicate 12 0.03636
  else []

/-- `common.MACRS_39_YEAR`: year 1 and year 40 stubs, years 2–39 flat. -/
def MACRS_39_YEAR (y : ℕ) : List ℚ :=
  if y = 1 then
    [0.02461, 0.02247, 0.02033, 0.01819, 0.01605, 0.01391,
     0.01177, 0.00963, 0.00749, 0.00535, 0.00321, 0.00107]
  else if y = 40 then
    [0.00107, 0.00321, 0.00535, 0.00749, 0.00963, 0.01177,
     0.01391, 0.01605, 0.01819, 0.02033, 0.02247, 0.02461]
  else if 2 ≤ y ∧ y ≤ 39 then List.replicate 12 0.02564
  else []

/-- `common.building_rate`: month column of the mid-month table
(`rates[m-1]` with the month clamped into 1..12; the table rows all have
12 entries so the default of `getD` is never reached). -/
def building_rate (year_index : ℕ) (in_service_month : ℕ) (is_residential : Bool) : ℚ :=
  let max_year := if is_residential then 29 else 40
  if year_index < 1 ∨ year_index > max_year then 0
  else
    let rates := (if is_residential then MACRS_27_5_YEAR else MACRS_39_YEAR) year_index
    if rates.isEmpty then 0
    else
      let m := max 1 (min 12 in_service_month)
      rates.getD (m - 1) 0

/-- `common.macrs_rate`. -/
def macrs_rate (asset_life : String) (year_index : ℕ) : ℚ :=
  if asset_life = "5" then MACRS_5_YEAR year_index
  else if asset_life = "7" then MACRS_7_YEAR year_index
  else if asset_life = "15" then MACRS_15_YEAR year_index
  else 0

/-- `common.LookbackYearRow`. -/
structure LookbackYearRow where
  calendar_year : ℤ
  depreciation_year : ℕ
  rate : ℚ
  depreciation : ℤ
  cumulative : ℤ
deriving DecidableEq, Repr

/-- `common.LookbackResult`. -/
structure LookbackResult where
  original_basis : ℤ
  bonus_rate : ℚ
  bonus_amount : ℤ
  depreciable_basis : ℤ
  current_year_depreciation : ℤ
  cumulative_depreciation : ℤ
  net_book_value : ℤ
  year_by_year : List LookbackYearRow
deriving DecidableEq, Repr

/-- The `for cal_year in range(...)` loop of `common.compute_lookback`
(lines 229–254).  The fuel is the length of the Python range
(`study_year + 1 - in_service_year`); the loop `break`s once the 1-based
`year_index` exceeds `max_years`.  Returns (rows, cumulative,
current_year_depreciation), the three variables the loop threads. -/
def lbLoop (depB : ℤ) (rate : ℕ → ℚ) (maxY : ℕ) (study : ℤ) :
    ℕ → ℤ → ℕ → ℤ → ℤ → (List LookbackYearRow × ℤ × ℤ)
  | 0, _, _, cum, cur => ([], cum, cur)
  | fuel + 1, cal, yi, cum, cur =>
      if maxY < yi then ([], cum, cur)
      else
        let r := rate yi
        let annual := eround ((depB : ℚ) * r)
        let cum2 := cum + annual
        let cur2 := if cal = study then annual else cur
        let rest := lbLoop depB rate maxY study fuel (cal + 1) (yi + 1) cum2 cur2
        (⟨cal, yi, r, annual, cum2⟩ :: rest.1, rest.2.1, rest.2.2)

/-- `common.compute_lookback`. -/
def compute_lookback (basis : ℚ) (in_service_date : SDate) (study_year : ℤ)
    (asset_kind : String) (is_residential_building : Bool) : LookbackResult :=
  let basis_i : ℤ := eround basis
  if basis_i ≤ 0 ∨ study_year < in_service_date.year then
    { original_basis := basis_i
      bonus_rate := 0
      bonus_amount := 0
      depreciable_basis := max basis_i 0
      current_year_depreciation := 0
      cumulative_depreciation := 0
      net_book_value := basis_i
      year_by_year := [] }
  else
    let in_month := in_service_date.month
    let bonus_rate : ℚ :=
      if asset_kind = "building" then 0 else get_bonus_rate in_service_date
    let bonus_amount : ℤ :=
      if asset_kind = "building" then 0 else eround ((basis_i : ℚ) * bonus_rate)
    let depreciable_basis : ℤ :=
      if asset_kind = "building" then basis_i else basis_i - bonus_amount
    let max_years : ℕ :=
      if asset_kind = "building" then (if is_residential_building then 29 else 40)
      else if asset_kind = "5" then 6
      else if asset_kind = "7" then 8
      else if asset_kind = "15" then 16
      else 0
    let rate : ℕ → ℚ := fun yi =>
      if asset_kind = "building" then building_rate yi in_month is_residential_building
      else macrs_rate asset_kind yi
    let fuel : ℕ := (study_year + 1 - in_service_date.year).toNat
    let loop := lbLoop depreciable_basis rate max_years study_year
                  fuel in_service_date.year 1 bonus_amount 0
    { original_basis := basis_i
      bonus_rate := bonus_rate
      bonus_amount := bonus_amount
      depreciable_basis := depreciable_basis
      current_year_depreciation := loop.2.2
      cumulative_depreciation := loop.2.1
      net_book_value := eround ((basis_i : ℚ) - (loop.2.1 : ℚ))
      year_by_year := loop.1 }

/-- The 5/7/15 loop of `common.compute_full_schedule` (lines 313–320):
year 1 folds the bonus amount into the MACRS amount. -/
def fsLoop (depB : ℤ) (rate : ℕ → ℚ) (bonus : ℤ) :
    ℕ → ℤ → ℕ → List (ℤ × ℤ)
  | 0, _, _ => []
  | n + 1, cal, yi =>
      let amt := eround ((depB : ℚ) * rate yi)
      (cal, if yi = 1 then bonus + amt else amt) :: fsLoop depB rate bonus n (cal + 1) (yi + 1)

/-- The building loop of `common.compute_full_schedule` (lines 297–301):
no bonus. -/
def fsLoopB (basis_i : ℤ) (rate : ℕ → ℚ) :
    ℕ → ℤ → ℕ → List (ℤ × ℤ)
  | 0, _, _ => []
  | n + 1, cal, yi =>
      (cal, eround ((basis_i : ℚ) * rate yi)) :: fsLoopB basis_i rate n (cal + 1) (yi + 1)

/-- `common.compute_full_schedule`: the Python dict `{calendar_year →
amount}` is modelled as an association list in insertion order (keys are
distinct by construction). -/
def compute_full_schedule (basis : ℚ) (in_service_date : SDate)
    (asset_kind : String) (is_residential_building : Bool) : List (ℤ × ℤ) :=
  let basis_i : ℤ := eround basis
  if basis_i ≤ 0 then []
  else if asset_kind = "building" then
    let max_years : ℕ := if is_residential_building then 29 else 40
    fsLoopB basis_i
      (fun yi => building_rate yi in_service_date.month is_residential_building)
      max_years in_service_date.year 1
  else
    let max_years : ℕ :=
      if asset_kind = "5" then 6 else if asset_kind = "7" then 8
      else if asset_kind = "15" then 16 else 0
    if max_years = 0 then []
    else
      let bonus_rate := get_bonus_rate in_service_date
      let bonus_amount := eround ((basis_i : ℚ) * bonus_rate)
      let depreciable_basis := basis_i - bonus_amount
      fsLoop depreciable_basis (fun yi => macrs_rate asset_kind yi) bonus_amount
        max_years in_service_date.year 1

/-! ### Commercial allocator (`eob_tool/commercial.py`) -/

/-- One row of the guideline table.  The pandas column-name resolution of
`_match_row`/`get_frac` is modelled away: a row carries its property-type
cell and the four fraction cells directly (the "Total Accelerated" column
is modelled as absent, so `p_accel` falls back to the documented default
`p5 + p7 + p15`; the optional "Dep. Life" column is likewise omitted). -/
structure GuidelineRow where
  propType : String
  p39 : ℚ
  p15 : ℚ
  p7 : ℚ
  p5 : ℚ
deriving DecidableEq, Repr

/-- `leading-match` helper: does `nd` occur at the head of the second
list?  (Used by the substring-containment test below.) -/
def leadEq : List Char → List Char → Bool
  | [], _ => true
  | _ :: _, [] => false
  | a :: as, b :: bs => a == b && leadEq as bs

/-- Does `nd` occur as a contiguous run inside the list? -/
def subList (nd : List Char) : List Char → Bool
  | [] => nd.isEmpty
  | b :: bs => leadEq nd (b :: bs) || subList nd bs

/-- Case-insensitive CONTAINMENT test of `_match_row`, embedded as
literal substring containment (Python `needle in haystack`), which is
what the spec (section 4.5b, "case-insensitive substring containment")
and the docstring of `_match_row` ("contains case-insensitive")
describe.  FAITHFULNESS NOTE: the source line (`commercial.py` line 87)
actually calls the pandas method `Series.str.contains(q, na=False)`,
whose default `regex=True` treats the query as a regular expression:
the two semantics agree exactly on queries free of regex
metacharacters, but a query such as "bank." regex-matches "bankers
hall" without being a substring of it, and an invalid pattern such as
"c++" makes the regex engine raise `re.error`.  The regex engine is
third-party library code and is not embedded; claim C7 records this
divergence as a code bug. -/
def str_contains (haystack needle : String) : Bool :=
  subList needle.data haystack.data

/-- `commercial._match_row`: exact case-insensitive match first, then
case-insensitive containment, first row in table order; an empty
normalized query fails immediately.  The containment step uses
`str_contains`, the substring reading of the pandas call (see the
faithfulness note on `str_contains`). -/
def match_row (rows : List GuidelineRow) (prop_type : String) :
    Option GuidelineRow × Bool :=
  let q := pyLower (pyStrip prop_type)
  if q = "" then (none, true)
  else
    match rows.find? (fun r => pyLower r.propType == q) with
    | some r => (some r, false)
    | none =>
        match rows.find? (fun r => str_contains (pyLower r.propType) q) with
        | some r => (some r, false)
        | none => (none, true)

/-- Engine-side commercial inputs (`B1` basis, `B2` property type, `B32`
in-service date, `B34` study year).  Input decoration parsing
(`parse_date`, string-to-int study year) is the glue layer; the engine
sees the parsed values. -/
structure CommInputs where
  b1 : ℚ
  b2 : String
  b32 : Option SDate
  b34 : Option ℤ
deriving Repr

/-- `commercial.CommercialResult` (the `inputs` echo and `dep_life` are
omitted; all other fields are kept). -/
structure CommercialResult where
  lookup_failed : Bool
  matched_property_type : Option String
  p39 : ℚ
  p15 : ℚ
  p7 : ℚ
  p5 : ℚ
  p_accel : ℚ
  A39 : ℤ
  A15 : ℤ
  A7 : ℤ
  A5 : ℤ
  s39 : ℚ
  s15 : ℚ
  s7 : ℚ
  s5 : ℚ
  s_accel : ℚ
  lookback_active : Bool
  in_service_date : Option SDate
  study_year : Option ℤ
  years_in_service : ℤ
  lb_39 : Option LookbackResult
  lb_15 : Option LookbackResult
  lb_7 : Option LookbackResult
  lb_5 : Option LookbackResult
  total_current_year_depr : ℤ
  total_cumulative_depr : ℤ
  prior_years_depr : ℤ
deriving Repr

/-- `commercial.compute_commercial`, up to the construction of the
`CommercialResult` value `res` (the source's success path finally feeds
`res` through `commercial_to_estimator_payload` for the spreadsheet
writer; that rendering projection is outside the engine and the claims
are about the result's fields).  Lookback is active only when both the
in-service date and the study year are present (`and` on line 180; the
`if in_service is None ...` defaults on lines 187–190 are unreachable
under that guard). -/
def compute_commercial (inp : CommInputs) (guidelines : List GuidelineRow) :
    CommercialResult :=
  let basis : ℚ := max inp.b1 0
  let prop_type := pyStrip inp.b2
  let m := match_row guidelines prop_type
  if m.2 || m.1.isNone then
    { lookup_failed := true
      matched_property_type := none
      p39 := 0, p15 := 0, p7 := 0, p5 := 0, p_accel := 0
      A39 := 0, A15 := 0, A7 := 0, A5 := 0
      s39 := 0, s15 := 0, s7 := 0, s5 := 0, s_accel := 0
      lookback_active := false
      in_service_date := none
      study_year := none
      years_in_service := 0
      lb_39 := none, lb_15 := none, lb_7 := none, lb_5 := none
      total_current_year_depr := 0
      total_cumulative_depr := 0
      prior_years_depr := 0 }
  else
    let row := m.1.getD ⟨"", 0, 0, 0, 0⟩
    let p39 := clamp01 row.p39
    let p15 := clamp01 row.p15
    let p7 := clamp01 row.p7
    let p5 := clamp01 row.p5
    let p_accel := clamp01 (p5 + p7 + p15)
    let A5 : ℤ := eround (basis * p5)
    let A7 : ℤ := eround (basis * p7)
    let A15 : ℤ := eround (basis * p15)
    let A39 : ℤ := eround (basis * p39)
    let sum_total : ℤ := A5 + A7 + A15 + A39
    let diff : ℤ := eround (basis - (sum_total : ℚ))
    let A39adj : ℤ := if diff ≠ 0 then A39 + diff else A39
    let s5 : ℚ := if 0 < basis then (A5 : ℚ) / basis else 0
    let s7 : ℚ := if 0 < basis then (A7 : ℚ) / basis else 0
    let s15 : ℚ := if 0 < basis then (A15 : ℚ) / basis else 0
    let s39 : ℚ := if 0 < basis then (A39adj : ℚ) / basis else 0
    let s_accel : ℚ := if 0 < basis then s5 + s7 + s15 else 0
    match inp.b32, inp.b34 with
    | some in_service, some study_year =>
        let years_in_service := max 0 (study_year - in_service.year + 1)
        let lb39 := compute_lookback (A39adj : ℚ) in_service study_year "building" false
        let lb15 := compute_lookback (A15 : ℚ) in_service study_year "15" false
        let lb7 := compute_lookback (A7 : ℚ) in_service study_year "7" false
        let lb5 := compute_lookback (A5 : ℚ) in_service study_year "5" false
        let total_cur := lb39.current_year_depreciation + lb15.current_year_depreciation
          + lb7.current_year_depreciation + lb5.current_year_depreciation
        let total_cum := lb39.cumulative_depreciation + lb15.cumulative_depreciation
          + lb7.cumulative_depreciation + lb5.cumulative_depreciation
        let prior := if 1 < years_in_service then total_cum - total_cur else 0
        { lookup_failed := false
          matched_property_type := some row.propType
          p39 := p39, p15 := p15, p7 := p7, p5 := p5, p_accel := p_accel
          A39 := A39adj, A15 := A15, A7 := A7, A5 := A5
          s39 := s39, s15 := s15, s7 := s7, s5 := s5, s_accel := s_accel
          lookback_active := true
          in_service_date := some in_service
          study_year := some study_year
          years_in_service := years_in_service
          lb_39 := some lb39, lb_15 := some lb15, lb_7 := some lb7, lb_5 := some lb5
          total_current_year_depr := total_cur
          total_cumulative_depr := total_cum
          prior_years_depr := prior }
    | _, _ =>
        { lookup_failed := false
          matched_property_type := some row.propType
          p39 := p39, p15 := p15, p7 := p7, p5 := p5, p_accel := p_accel
          A39 := A39adj, A15 := A15, A7 := A7, A5 := A5
          s39 := s39, s15 := s15, s7 := s7, s5 := s5, s_accel := s_accel
          lookback_active := false
          in_service_date := inp.b32
          study_year := inp.b34
          years_in_service := 0
          lb_39 := none, lb_15 := none, lb_7 := none, lb_5 := none
          total_current_year_depr := 0
          total_cumulative_depr := 0
          prior_years_depr := 0 }

/-! ### Residential allocator (`eob_tool/residential.py`) -/

/-- One row of `residential.TIER_RATES`. -/
structure TierRate where
  rate17 : ℚ
  rate18 : ℚ
  rate19 : ℚ
  rate20 : ℚ
  rate21 : ℚ
deriving DecidableEq, Repr

/-- `residential.TIER_RATES` as a keyed lookup (`none` models a missing
dict key). -/
def TIER_RATES (s : String) : Option TierRate :=
  if s = "SFR$" then some ⟨21638, 257, 283, 4, 15300⟩
  else if s = "SFR$$" then some ⟨28565, 257, 283, 11, 15300⟩
  else if s = "SFR$$$" then some ⟨32691, 257, 283, 11, 15300⟩
  else none

/-- `residential.MFR_TIERS`. -/
def MFR_TIERS : List String := ["MFR$", "MFR$$", "MFR$$$"]

/-- Engine-side residential inputs (the B-cells after the glue layer's
type coercions; `b11` is display-only in the source but kept).  Missing
keys are the caller's concern (the source merges `DEFAULT_INPUTS`). -/
structure ResInputs where
  b1 : ℚ
  b2 : ℚ
  b3 : ℚ
  b4 : ℚ
  b5 : ℚ
  b6 : ℚ
  b7 : ℚ
  b8 : ℚ
  b9 : ℚ
  b10 : ℚ
  b11 : ℚ
  b12 : ℚ
  b28 : ℚ
  b31 : String
  b32 : Option SDate
  b34 : Option ℤ
deriving DecidableEq, Repr

/-- `residential._apply_tier_logic`: returns (effective inputs,
tier_display, building_type). -/
def apply_tier_logic (i : ResInputs) : ResInputs × String × String :=
  let raw := pyUpper (pyStrip i.b31)
  if raw ∈ MFR_TIERS then
    ({ i with b31 := "SFR" ++ pyDrop raw 3, b28 := 200 }, raw, "MFR")
  else if (TIER_RATES raw).isNone then
    ({ i with b31 := "SFR$" }, "SFR$", "SFR")
  else
    ({ i with b31 := raw }, raw, "SFR")

/-- `residential.ResidentialResult` (the `inputs` echo is omitted). -/
structure ResidentialResult where
  tier_display : String
  building_type : String
  C6_internal : ℤ
  area_sf : ℤ
  landscape_ac : ℚ
  hardscape_ac : ℚ
  parking_ac : ℚ
  landscape_sf : ℤ
  hardscape_sf : ℤ
  parking_sf : ℤ
  D17 : ℤ
  D18 : ℤ
  D19 : ℤ
  D20 : ℤ
  D21 : ℤ
  D22 : ℤ
  D23 : ℤ
  D24 : ℤ
  D25 : ℤ
  D26 : ℤ
  D27 : ℤ
  D28 : ℤ
  D29 : ℤ
  D30 : ℤ
  B13 : ℤ
  B14 : ℤ
  B15 : ℤ
  B16 : ℤ
  C13_pct : ℚ
  C14_pct : ℚ
  C15_pct : ℚ
  C16_pct : ℚ
  D13 : ℤ
  D14 : ℤ
  D15 : ℤ
  D16 : ℤ
  lookback_active : Bool
  in_service_date : Option SDate
  study_year : Option ℤ
  years_in_service : ℤ
  lookback_building : Option LookbackResult
  lookback_5 : Option LookbackResult
  lookback_15 : Option LookbackResult
  total_current_year_depr : ℤ
  total_cumulative_depr : ℤ
  prior_years_depr : ℤ

/-- The lookback tail of `compute_residential` (lines 196–236), returning
the fields it sets: (active, in_service, study_year, years_in_service,
lb_building, lb_5, lb_15, total_cur, total_cum, prior).  Residential
lookback is active when EITHER date field is present; the absent one is
defaulted (missing date → Jan 1 of the study year, missing study year →
the current year). -/
def residential_lookback_active (D13v D14v D15v : ℤ) (in_service : SDate)
    (study_year : ℤ) :
    Bool × Option SDate × Option ℤ × ℤ
      × Option LookbackResult × Option LookbackResult × Option LookbackResult
      × ℤ × ℤ × ℤ :=
  let years_in_service := max 0 (study_year - in_service.year + 1)
  let lb_building := compute_lookback (D13v : ℚ) in_service study_year "building" true
  let lb_5 := compute_lookback (D14v : ℚ) in_service study_year "5" true
  let lb_15 := compute_lookback (D15v : ℚ) in_service study_year "15" true
  let total_cur := lb_building.current_year_depreciation
    + lb_5.current_year_depreciation + lb_15.current_year_depreciation
  let total_cum := lb_building.cumulative_depreciation
    + lb_5.cumulative_depreciation + lb_15.cumulative_depreciation
  let prior := if 1 < years_in_service then total_cum - total_cur else 0
  (true, some in_service, some study_year, years_in_service,
    some lb_building, some lb_5, some lb_15, total_cur, total_cum, prior)

/-- The lookback tail of `compute_residential` (lines 196–236), returning
the fields it sets: (active, in_service, study_year, years_in_service,
lb_building, lb_5, lb_15, total_cur, total_cum, prior).  Residential
lookback is active when EITHER date field is present; the absent one is
defaulted (missing date → Jan 1 of the study year, missing study year →
the current year). -/
def residential_lookback (D13v D14v D15v : ℤ) (b32 : Option SDate)
    (b34 : Option ℤ) (today_year : ℤ) :
    Bool × Option SDate × Option ℤ × ℤ
      × Option LookbackResult × Option LookbackResult × Option LookbackResult
      × ℤ × ℤ × ℤ :=
  match b32, b34 with
  | none, none => (false, none, none, 0, none, none, none, 0, 0, 0)
  | some d, some sy => residential_lookback_active D13v D14v D15v d sy
  | some d, none => residential_lookback_active D13v D14v D15v d today_year
  | none, some sy => residential_lookback_active D13v D14v D15v ⟨sy, 1, 1⟩ sy

/-- `residential.compute_residential` (result fields; the source finally
feeds the result through `residential_to_estimator_payload` for the
spreadsheet writer, a rendering projection outside the engine).  `today`
enters only through its year, so it is passed as `today_year`. -/
def compute_residential (i0 : ResInputs) (today_year : ℤ) : ResidentialResult :=
  let tl := apply_tier_logic i0
  let B := tl.1
  let tier_display := tl.2.1
  let building_type := tl.2.2
  let B1 := B.b1
  let B2 := B.b2
  let B3 := B.b3
  let B4 := B.b4
  let B5 := B.b5
  let B6 := clamp01 B.b6
  let B7 := clamp01 B.b7
  let B8 := clamp01 B.b8
  let B9 := clamp01 B.b9
  let B10 := B.b10
  let B12 := B.b12
  let B28 := B.b28
  let C6_internal : ℤ := eround (B1 * B6)
  let s := B7 + B8 + B9
  let capOK : Prop := s ≤ 0.70 + 1/1000000000000
  let p7 : ℚ := if capOK then B7 else B7 * (0.70 / s)
  let p8 : ℚ := if capOK then B8 else B8 * (0.70 / s)
  let p9 : ℚ := if capOK then B9 else B9 * (0.70 / s)
  let area_sf : ℤ := eround (B2 * 43560)
  let landscape_sf : ℤ := eround (p7 * (area_sf : ℚ))
  let hardscape_sf : ℤ := eround (p8 * (area_sf : ℚ))
  let parking_sf : ℤ := eround (p9 * (area_sf : ℚ))
  let landscape_ac := excel_round (p7 * B2) 2
  let hardscape_ac := excel_round (p8 * B2) 2
  let parking_ac := excel_round (p9 * B2) 2
  -- the source indexes `TIER_RATES[B31]` directly; `_apply_tier_logic`
  -- guarantees the key is present, so the `getD` default is unreachable
  let rates := (TIER_RATES B.b31).getD ⟨0, 0, 0, 0, 0⟩
  let D17 : ℤ := eround (rates.rate17 * B5)
  let D18 : ℤ := eround (rates.rate18 * B3)
  let D19 : ℤ := eround (rates.rate19 * B4)
  let D20 : ℤ := eround (rates.rate20 * (C6_internal : ℚ))
  let D21 : ℤ := eround (rates.rate21 * B10)
  let D22 : ℤ := D17 + D18 + D19 + D20 + D21
  let D23 : ℤ := 0
  let D24 : ℤ := eround (2.786 * (landscape_sf : ℚ))
  let D25 : ℤ := eround (8 * (hardscape_sf : ℚ))
  let D26 : ℤ := eround (7.87 * (parking_sf : ℚ))
  let D27 : ℤ := D24 + D25 + D26
  let D28 : ℤ := eround (B28 * B1)
  let D29 : ℤ := -D22
  let D30 : ℤ := D28 + D29
  let B13 : ℤ := D30
  let B14 : ℤ := D22
  let B15 : ℤ := D27
  let B16 : ℤ := B13 + B14 + B15
  let C13 : ℚ := if 0 < B16 then (B13 : ℚ) / (B16 : ℚ) else 0
  let C14 : ℚ := if 0 < B16 then (B14 : ℚ) / (B16 : ℚ) else 0
  let C15 : ℚ := if 0 < B16 then (B15 : ℚ) / (B16 : ℚ) else 0
  let C16 : ℚ := if 0 < B16 then (B14 : ℚ) / (B16 : ℚ) + (B15 : ℚ) / (B16 : ℚ) else 0
  let C13_pct := excel_round (C13 * 100) 2
  let C14_pct := excel_round (C14 * 100) 2
  let C15_pct := excel_round (C15 * 100) 2
  let C16_pct := excel_round (C16 * 100) 2
  let D13 : ℤ := eround (C13 * B12)
  let D14 : ℤ := eround (C14 * B12)
  let D15 : ℤ := eround (C15 * B12)
  let D16 : ℤ := D14 + D15
  let lb := residential_lookback D13 D14 D15 B.b32 B.b34 today_year
  { tier_display := tier_display
    building_type := building_type
    C6_internal := C6_internal
    area_sf := area_sf
    landscape_ac := landscape_ac
    hardscape_ac := hardscape_ac
    parking_ac := parking_ac
    landscape_sf := landscape_sf
    hardscape_sf := hardscape_sf
    parking_sf := parking_sf
    D17 := D17, D18 := D18, D19 := D19, D20 := D20, D21 := D21, D22 := D22
    D23 := D23, D24 := D24, D25 := D25, D26 := D26, D27 := D27
    D28 := D28, D29 := D29, D30 := D30
    B13 := B13, B14 := B14, B15 := B15, B16 := B16
    C13_pct := C13_pct, C14_pct := C14_pct, C15_pct := C15_pct, C16_pct := C16_pct
    D13 := D13, D14 := D14, D15 := D15, D16 := D16
    lookback_active := lb.1
    in_service_date := lb.2.1
    study_year := lb.2.2.1
    years_in_service := lb.2.2.2.1
    lookback_building := lb.2.2.2.2.1
    lookback_5 := lb.2.2.2.2.2.1
    lookback_15 := lb.2.2.2.2.2.2.1
    total_current_year_depr := lb.2.2.2.2.2.2.2.1
    total_cumulative_depr := lb.2.2.2.2.2.2.2.2.1
    prior_years_depr := lb.2.2.2.2.2.2.2.2.2 }

/-! ### Helper definitions for the proofs -/

/-- Annual depreciation amount at table-year `t`. -/
def depAt (depB : ℤ) (rate : ℕ → ℚ) (t : ℕ) : ℤ := eround ((depB : ℚ) * rate t)

/-- Sum of the annual amounts for table-years `yi, yi+1, …, yi+n-1`. -/
def sumDep (depB : ℤ) (rate : ℕ → ℚ) (yi n : ℕ) : ℤ :=
  ((List.range n).map (fun j => depAt depB rate (yi + j))).sum

/-- Closed form of the `k`-th row emitted by `lbLoop` started at
calendar year `cal`, table-year `yi`, running cumulative `cum`. -/
def lbRow (depB : ℤ) (rate : ℕ → ℚ) (cal : ℤ) (yi : ℕ) (cum : ℤ) (k : ℕ) :
    LookbackYearRow :=
  { calendar_year := cal + (k : ℤ)
    depreciation_year := yi + k
    rate := rate (yi + k)
    depreciation := depAt depB rate (yi + k)
    cumulative := cum + sumDep depB rate yi (k + 1) }

/-! ### Lemmas: rounding kernel -/

theorem eround_intCast (n : ℤ) : eround (n : ℚ) = n := by
  unfold eround
  by_cases h : (0 : ℚ) ≤ (n : ℚ)
  · rw [if_pos h]
    have : ((n : ℚ) + 1/2) = (1/2 : ℚ) + n := by ring
    rw [this, Int.floor_add_int]
    norm_num
  · rw [if_neg h]
    have : ((n : ℚ) - 1/2) = (-(1/2) : ℚ) + n := by ring
    rw [this, Int.ceil_add_int]
    norm_num

theorem abs_eround_sub_le (x : ℚ) : |(eround x : ℚ) - x| ≤ 1/2 := by
  unfold eround
  split
  · have h1 : ((⌊x + 1/2⌋ : ℤ) : ℚ) ≤ x + 1/2 := Int.floor_le _
    have h2 : x + 1/2 - 1 < ((⌊x + 1/2⌋ : ℤ) : ℚ) := Int.sub_one_lt_floor _
    rw [abs_le]
    constructor <;> linarith
  · have h1 : (x - 1/2 : ℚ) ≤ ((⌈x - 1/2⌉ : ℤ) : ℚ) := Int.le_ceil _
    have h2 : ((⌈x - 1/2⌉ : ℤ) : ℚ) < x - 1/2 + 1 := Int.ceil_lt_add_one _
    rw [abs_le]
    constructor <;> linarith

/-- Rounding commutes with subtracting an integer, for a nonnegative
argument whose fractional part is not exactly 1/2 (the half-away-from-zero
rule is not translation invariant at negative halves). -/
theorem eround_sub_intCast (b : ℚ) (s : ℤ) (hb : 0 ≤ b)
    (hf : Int.fract b ≠ 1/2) : eround (b - (s : ℚ)) = eround b - s := by
  unfold eround
  rw [if_pos hb]
  by_cases h : (0 : ℚ) ≤ b - (s : ℚ)
  · rw [if_pos h]
    rw [sub_add_eq_add_sub]
    exact Int.floor_sub_int _ _
  · rw [if_neg h]
    rw [sub_right_comm, Int.ceil_sub_int]
    congr 1
    have hni : b - 1/2 ≠ ((⌊b - 1/2⌋ : ℤ) : ℚ) := by
      intro hc
      apply hf
      have hb2 : b = ((⌊b - 1/2⌋ : ℤ) : ℚ) + 1/2 := by linarith
      rw [hb2, Int.fract_int_add]
      rw [Int.fract]
      norm_num
    have hlt : ((⌊b - 1/2⌋ : ℤ) : ℚ) < b - 1/2 :=
      lt_of_le_of_ne (Int.floor_le _) (Ne.symm hni)
    have h1 : ⌈b - 1/2⌉ = ⌊b - 1/2⌋ + 1 := by
      apply le_antisymm
      · apply Int.ceil_le.mpr
        push_cast
        linarith [Int.lt_floor_add_one (b - 1/2)]
      · rw [Int.add_one_le_iff]
        have := Int.le_ceil (b - 1/2)
        exact_mod_cast lt_of_lt_of_le hlt this
    rw [h1]
    have hrw : b + 1/2 = (b - 1/2) + 1 := by ring
    rw [hrw, Int.floor_add_one]

/-! ### Lemmas: the lookback loop -/

theorem sumDep_zero (depB : ℤ) (rate : ℕ → ℚ) (yi : ℕ) :
    sumDep depB rate yi 0 = 0 := by simp [sumDep]

theorem sumDep_one (depB : ℤ) (rate : ℕ → ℚ) (yi : ℕ) :
    sumDep depB rate yi 1 = depAt depB rate yi := by
  unfold sumDep
  rw [show (1:ℕ) = 0 + 1 from rfl, List.range_succ]
  simp

theorem sumDep_succ_shift (depB : ℤ) (rate : ℕ → ℚ) (yi n : ℕ) :
    sumDep depB rate yi (n + 1) = depAt depB rate yi + sumDep depB rate (yi + 1) n := by
  unfold sumDep
  rw [List.range_succ_eq_map]
  simp only [List.map_cons, List.map_map, List.sum_cons, Nat.add_zero]
  congr 1
  apply congrArg List.sum
  apply List.map_congr_left
  intro j _
  simp only [Function.comp_apply]
  congr 1
  omega

theorem lbRow_succ (depB : ℤ) (rate : ℕ → ℚ) (cal : ℤ) (yi : ℕ) (cum : ℤ) (k : ℕ) :
    lbRow depB rate cal yi cum (k + 1)
      = lbRow depB rate (cal + 1) (yi + 1) (cum + depAt depB rate yi) k := by
  simp only [lbRow, LookbackYearRow.mk.injEq]
  refine ⟨by push_cast; ring, by omega, ?_, ?_, ?_⟩
  · rw [show yi + (k + 1) = yi + 1 + k by omega]
  · rw [show yi + (k + 1) = yi + 1 + k by omega]
  · rw [show k + 1 + 1 = (k + 1) + 1 from rfl, sumDep_succ_shift]
    ring

theorem lbLoop_fst (depB : ℤ) (rate : ℕ → ℚ) (maxY : ℕ) (study : ℤ) :
    ∀ (fuel : ℕ) (cal : ℤ) (yi : ℕ) (cum cur : ℤ),
    (lbLoop depB rate maxY study fuel cal yi cum cur).1
      = (List.range (min fuel (maxY + 1 - yi))).map (lbRow depB rate cal yi cum) := by
  intro fuel
  induction fuel with
  | zero => intro cal yi cum cur; simp [lbLoop]
  | succ n ih =>
    intro cal yi cum cur
    by_cases h : maxY < yi
    · have h0 : maxY + 1 - yi = 0 := by omega
      simp [lbLoop, h, h0]
    · have hm : maxY + 1 - yi = (maxY - yi) + 1 := by omega
      have hm2 : maxY + 1 - (yi + 1) = maxY - yi := by omega
      simp only [lbLoop, if_neg h]
      rw [ih, hm, Nat.succ_min_succ, List.range_succ_eq_map]
      simp only [List.map_cons, List.map_map]
      congr 1
      · simp [lbRow, sumDep_one, depAt]
      · rw [hm2]
        apply List.map_congr_left
        intro j _
        simp only [Function.comp_apply]
        rw [show Nat.succ j = j + 1 from rfl, lbRow_succ]
        rfl

theorem lbLoop_cum (depB : ℤ) (rate : ℕ → ℚ) (maxY : ℕ) (study : ℤ) :
    ∀ (fuel : ℕ) (cal : ℤ) (yi : ℕ) (cum cur : ℤ),
    (lbLoop depB rate maxY study fuel cal yi cum cur).2.1
      = cum + sumDep depB rate yi (min fuel (maxY + 1 - yi)) := by
  intro fuel
  induction fuel with
  | zero => intro cal yi cum cur; simp [lbLoop, sumDep]
  | succ n ih =>
    intro cal yi cum cur
    by_cases h : maxY < yi
    · have h0 : maxY + 1 - yi = 0 := by omega
      simp [lbLoop, h, h0, sumDep]
    · have hm : maxY + 1 - yi = (maxY - yi) + 1 := by omega
      have hm2 : maxY + 1 - (yi + 1) = maxY - yi := by omega
      simp only [lbLoop, if_neg h]
      rw [ih, hm2, hm, Nat.succ_min_succ, sumDep_succ_shift]
      simp only [depAt]
      ring

/-! ### Lemmas: the full-schedule loops -/

theorem fsLoop_eq (depB : ℤ) (rate : ℕ → ℚ) (bonus : ℤ) :
    ∀ (n : ℕ) (cal : ℤ) (yi : ℕ),
    fsLoop depB rate bonus n cal yi
      = (List.range n).map (fun (k : ℕ) =>
          (cal + (k : ℤ),
            if yi + k = 1 then bonus + depAt depB rate (yi + k)
            else depAt depB rate (yi + k))) := by
  intro n
  induction n with
  | zero => intro cal yi; simp [fsLoop]
  | succ m ih =>
    intro cal yi
    simp only [fsLoop]
    rw [ih, List.range_succ_eq_map]
    simp only [List.map_cons, List.map_map]
    congr 1
    · simp [depAt]
    · apply List.map_congr_left
      intro j _
      simp only [Function.comp_apply, Prod.mk.injEq]
      rw [show Nat.succ j = j + 1 from rfl]
      refine ⟨by push_cast; ring, ?_⟩
      rw [show yi + (j + 1) = yi + 1 + j by omega]

theorem fsLoopB_eq (basis_i : ℤ) (rate : ℕ → ℚ) :
    ∀ (n : ℕ) (cal : ℤ) (yi : ℕ),
    fsLoopB basis_i rate n cal yi
      = (List.range n).map (fun (k : ℕ) => (cal + (k : ℤ), depAt basis_i rate (yi + k))) := by
  intro n
  induction n with
  | zero => intro cal yi; simp [fsLoopB]
  | succ m ih =>
    intro cal yi
    simp only [fsLoopB]
    rw [ih, List.range_succ_eq_map]
    simp only [List.map_cons, List.map_map]
    congr 1
    · simp [depAt]
    · apply List.map_congr_left
      intro j _
      simp only [Function.comp_apply, Prod.mk.injEq]
      rw [show Nat.succ j = j + 1 from rfl]
      refine ⟨by push_cast; ring, ?_⟩
      rw [show yi + (j + 1) = yi + 1 + j by omega]

theorem lookup_range_map :
    ∀ (n : ℕ) (v : ℕ → ℤ) (cal : ℤ) (j : ℕ), j < n →
    ((List.range n).map (fun (k : ℕ) => (cal + (k : ℤ), v k))).lookup (cal + (j : ℤ))
      = some (v j) := by
  intro n
  induction n with
  | zero => intro v cal j h; exact absurd h (Nat.not_lt_zero j)
  | succ m ih =>
    intro v cal j hj
    rw [List.range_succ_eq_map]
    simp only [List.map_cons, List.map_map]
    cases j with
    | zero => simp [List.lookup]
    | succ i =>
        rw [List.lookup_cons]
        split
        · next hcond =>
            exfalso
            simp only [beq_iff_eq] at hcond
            push_cast at hcond
            omega
        · next =>
            have hmap : (List.range m).map ((fun (k : ℕ) => (cal + (k : ℤ), v k)) ∘ Nat.succ)
                = (List.range m).map
                    (fun (k : ℕ) => ((cal + 1) + (k : ℤ), (fun t => v (t + 1)) k)) := by
              apply List.map_congr_left
              intro t _
              simp only [Function.comp_apply, Prod.mk.injEq]
              constructor
              · push_cast
                ring
              · trivial
            rw [hmap]
            have hq : (cal + ((i + 1 : ℕ) : ℤ)) = (cal + 1) + (i : ℤ) := by
              push_cast
              ring
            rw [hq]
            exact ih (fun t => v (t + 1)) (cal + 1) i (by omega)

/-! ### Claim theorems -/

/-- C8: the engine's rounding primitive rounds halves away from zero at
the requested digit count: `excel_round(0.5, 0) = 1`,
`excel_round(-0.5, 0) = -1`, and `excel_round(2.5, 0) = 3` (not 2 as
round-half-to-even would give). -/
theorem c8_rounding_law :
    excel_round (1/2) 0 = 1 ∧ excel_round (-(1/2)) 0 = -1
      ∧ excel_round (5/2) 0 = 3 ∧ excel_round (5/2) 0 ≠ 2 := by
  refine ⟨?_, ?_, ?_, ?_⟩ <;> norm_num [excel_round, eround, Int.ceil_neg, Int.floor_one]

/-- C1 (code bug): the bonus-rate lookup actually used by the engine is
the second, shadowing definition of `get_bonus_rate`, which returns the
constant 0.8 for every in-service date; the date-sensitive schedule
lookup (the first definition, `get_bonus_rate_v1`) would return 0 for an
in-service date of 2000-06-15 (the 1900-01-01..2001-09-10 range), so the
engine's lookup does not return the rate of the containing range. -/
theorem c1_bonus_rate_constant_bug :
    get_bonus_rate ⟨2000, 6, 15⟩ = 0.8
      ∧ get_bonus_rate_v1 ⟨2000, 6, 15⟩ = 0
      ∧ get_bonus_rate ⟨2000, 6, 15⟩ ≠ get_bonus_rate_v1 ⟨2000, 6, 15⟩
      ∧ (∀ d₁ d₂ : SDate, get_bonus_rate d₁ = get_bonus_rate d₂) := by
  refine ⟨rfl, ?_, ?_, fun d₁ d₂ => rfl⟩
  · simp [get_bonus_rate_v1, bonus_lookup, BONUS_SCHEDULE, sdate_le]
  · simp [get_bonus_rate, get_bonus_rate_v1, bonus_lookup, BONUS_SCHEDULE, sdate_le]
    norm_num

/-- C6: `compute_lookback` called with basis ≤ 0, or with a study year
strictly before the in-service year, returns a result with an empty row
sequence and zero bonus amount, current-year depreciation, and
cumulative depreciation (terminal, not an error). -/
theorem c6_degenerate_zeroed (basis : ℚ) (d : SDate) (study : ℤ)
    (kind : String) (ir : Bool) (h : basis ≤ 0 ∨ study < d.year) :
    (compute_lookback basis d study kind ir).year_by_year = []
      ∧ (compute_lookback basis d study kind ir).bonus_amount = 0
      ∧ (compute_lookback basis d study kind ir).current_year_depreciation = 0
      ∧ (compute_lookback basis d study kind ir).cumulative_depreciation = 0 := by
  have hg : eround basis ≤ 0 ∨ study < d.year := by
    rcases h with h | h
    · left
      unfold eround
      split
      · next hx =>
          have hb0 : basis = 0 := le_antisymm h hx
          rw [hb0]
          norm_num
      · next hx =>
          exact Int.ceil_le.mpr (by push_cast; linarith)
    · right
      exact h
  simp [compute_lookback, if_pos hg]

theorem c6_degenerate_zeroed_witness :
    ((0 : ℚ) ≤ 0 ∨ (2030 : ℤ) < (⟨2020, 5, 1⟩ : SDate).year)
      ∧ ((compute_lookback 0 ⟨2020, 5, 1⟩ 2030 "5" false).year_by_year = []
        ∧ (compute_lookback 0 ⟨2020, 5, 1⟩ 2030 "5" false).bonus_amount = 0
        ∧ (compute_lookback 0 ⟨2020, 5, 1⟩ 2030 "5" false).current_year_depreciation = 0
        ∧ (compute_lookback 0 ⟨2020, 5, 1⟩ 2030 "5" false).cumulative_depreciation = 0) :=
  ⟨Or.inl le_rfl, c6_degenerate_zeroed 0 ⟨2020, 5, 1⟩ 2030 "5" false (Or.inl le_rfl)⟩

/-- C7 (code bug): the claim — no exact and no substring match implies
a flagged all-zero result with lookback inactive and no exception —
matches the spec (sections 4.5b and 7) and the docstring of
`_match_row`, but the source performs the containment test with the
pandas method `Series.str.contains`, whose default `regex=True` treats
the query as a regular expression.  At the failing input below,
property type "Bank." against a table whose only row is "Bankers
Hall", the normalized query "bank." is neither equal to nor a substring
of "bankers hall" (proved here), so the claim requires the flagged
all-zero result — and the substring-semantics embedding indeed produces
it (proved here) — while the program regex-matches "bank." against
"bankers hall" (the dot matches any character) and returns a successful
match with nonzero buckets; a metacharacter query such as "C++" even
makes the regex engine raise `re.error` instead of returning the
terminal flagged result.  The regex engine is third-party code and is
not embedded, so the divergent program behaviour itself is stated in
this comment, not as a Lean term. -/
theorem c7_substring_model_at_failing_input :
    pyLower (pyStrip (pyStrip ("Bank." : String))) = "bank."
      ∧ pyLower ("Bankers Hall" : String) = "bankers hall"
      ∧ ("bankers hall" : String) ≠ ("bank." : String)
      ∧ str_contains ("bankers hall" : String) ("bank." : String) = false
      ∧ (compute_commercial ⟨1000000, "Bank.", none, none⟩
          [⟨"Bankers Hall", 0.9, 0.1, 0, 0⟩]).lookup_failed = true
      ∧ (compute_commercial ⟨1000000, "Bank.", none, none⟩
          [⟨"Bankers Hall", 0.9, 0.1, 0, 0⟩]).A39 = 0
      ∧ (compute_commercial ⟨1000000, "Bank.", none, none⟩
          [⟨"Bankers Hall", 0.9, 0.1, 0, 0⟩]).A15 = 0
      ∧ (compute_commercial ⟨1000000, "Bank.", none, none⟩
          [⟨"Bankers Hall", 0.9, 0.1, 0, 0⟩]).A7 = 0
      ∧ (compute_commercial ⟨1000000, "Bank.", none, none⟩
          [⟨"Bankers Hall", 0.9, 0.1, 0, 0⟩]).A5 = 0
      ∧ (compute_commercial ⟨1000000, "Bank.", none, none⟩
          [⟨"Bankers Hall", 0.9, 0.1, 0, 0⟩]).lookback_active = false := by
  refine ⟨by decide, by decide, by decide, by decide, by decide,
    by decide, by decide, by decide, by decide, by decide⟩

/-- The exact-basis reconciliation step of `compute_commercial`
(lines 157–160): adding the rounded residual to the 39-year bucket
recovers `round(basis)` exactly whenever the basis' fractional part is
not 1/2. -/
theorem reconcile_sum (basis : ℚ) (hb : 0 ≤ basis) (hf : Int.fract basis ≠ 1/2)
    (A5 A7 A15 A39 : ℤ) :
    (if eround (basis - ((A5 + A7 + A15 + A39 : ℤ) : ℚ)) ≠ 0
      then A39 + eround (basis - ((A5 + A7 + A15 + A39 : ℤ) : ℚ)) else A39)
      + A15 + A7 + A5 = eround basis := by
  have hd : eround (basis - ((A5 + A7 + A15 + A39 : ℤ) : ℚ))
      = eround basis - (A5 + A7 + A15 + A39) :=
    eround_sub_intCast basis _ hb hf
  rw [hd]
  split
  · omega
  · next h =>
      omega

/-- C2 (amended): for a commercial input whose property-type lookup
succeeds, after the reconciliation step the four bucket amounts satisfy
`A39 + A15 + A7 + A5 = round(basis)` exactly, PROVIDED the effective
basis `max(B1, 0)` is not an exact half-integer; the residual
`round(basis − sum of the four rounded bucket amounts)` is added
entirely to the 39-year bucket.  (At a half-integer basis the rounded
residual can shift by one; see the counterexample.) -/
theorem c2_basis_reconciliation (inp : CommInputs) (g : List GuidelineRow)
    (hok : (compute_commercial inp g).lookup_failed = false)
    (hf : Int.fract (max inp.b1 0) ≠ 1/2) :
    (compute_commercial inp g).A39 + (compute_commercial inp g).A15
      + (compute_commercial inp g).A7 + (compute_commercial inp g).A5
      = eround (max inp.b1 0) := by
  obtain ⟨b1, b2, b32, b34⟩ := inp
  by_cases hcase : ((match_row g (pyStrip b2)).2 || (match_row g (pyStrip b2)).1.isNone) = true
  · exfalso
    have hlf : (compute_commercial ⟨b1, b2, b32, b34⟩ g).lookup_failed = true := by
      simp only [compute_commercial]
      rw [if_pos hcase]
    rw [hlf] at hok
    exact Bool.true_eq_false.mp hok
  · have hb : (0 : ℚ) ≤ max b1 0 := le_max_right _ _
    cases b32 <;> cases b34 <;>
      · simp only [compute_commercial, if_neg hcase]
        exact reconcile_sum (max b1 0) hb hf _ _ _ _

/-- C2 counterexample: with basis 2.5 and a matched guideline row having
fractions (p39, p15, p7, p5) = (1, 0, 0, 0) — basis ≥ 0, all fractions
in [0,1] — the reconciled total is 2 while `round(basis)` is 3, so the
claimed exact identity fails as stated. -/
theorem c2_exact_conservation_cex :
    (compute_commercial ⟨5/2, "Bank", none, none⟩ [⟨"Bank", 1, 0, 0, 0⟩]).lookup_failed = false
      ∧ (compute_commercial ⟨5/2, "Bank", none, none⟩ [⟨"Bank", 1, 0, 0, 0⟩]).A39
        + (compute_commercial ⟨5/2, "Bank", none, none⟩ [⟨"Bank", 1, 0, 0, 0⟩]).A15
        + (compute_commercial ⟨5/2, "Bank", none, none⟩ [⟨"Bank", 1, 0, 0, 0⟩]).A7
        + (compute_commercial ⟨5/2, "Bank", none, none⟩ [⟨"Bank", 1, 0, 0, 0⟩]).A5 = 2
      ∧ eround ((5/2 : ℚ)) = 3 ∧ (2 : ℤ) ≠ 3 := by
  have hm : match_row [(⟨"Bank", 1, 0, 0, 0⟩ : GuidelineRow)] (pyStrip "Bank")
      = (some ⟨"Bank", 1, 0, 0, 0⟩, false) := by decide
  refine ⟨by decide, ?_, ?_, by decide⟩
  · simp only [compute_commercial, hm]
    norm_num [clamp01, eround, Int.ceil_neg, Int.floor_one]
  · norm_num [eround]

theorem c2_basis_reconciliation_witness :
    ((compute_commercial ⟨1000000, "Bank", none, none⟩
        [⟨"Bank", 0.85, 0.05, 0.05, 0.05⟩]).lookup_failed = false
      ∧ Int.fract (max (1000000 : ℚ) 0) ≠ 1/2)
      ∧ (compute_commercial ⟨1000000, "Bank", none, none⟩
            [⟨"Bank", 0.85, 0.05, 0.05, 0.05⟩]).A39
        + (compute_commercial ⟨1000000, "Bank", none, none⟩
            [⟨"Bank", 0.85, 0.05, 0.05, 0.05⟩]).A15
        + (compute_commercial ⟨1000000, "Bank", none, none⟩
            [⟨"Bank", 0.85, 0.05, 0.05, 0.05⟩]).A7
        + (compute_commercial ⟨1000000, "Bank", none, none⟩
            [⟨"Bank", 0.85, 0.05, 0.05, 0.05⟩]).A5
        = eround (max (1000000 : ℚ) 0) := by
  have h1 : (compute_commercial ⟨1000000, "Bank", none, none⟩
      [⟨"Bank", 0.85, 0.05, 0.05, 0.05⟩]).lookup_failed = false := by decide
  have h2 : Int.fract (max (1000000 : ℚ) 0) ≠ 1/2 := by
    rw [max_eq_left (by norm_num : (0 : ℚ) ≤ 1000000)]
    rw [Int.fract]
    norm_num
  exact ⟨⟨h1, h2⟩,
    c2_basis_reconciliation ⟨1000000, "Bank", none, none⟩
      [⟨"Bank", 0.85, 0.05, 0.05, 0.05⟩] h1 (by
        rw [show max (1000000 : ℚ) 0 = ((1000000 : ℚ)) from
          max_eq_left (by norm_num)] at h2 ⊢
        exact h2)⟩

/-- Rounding three shares of a basis independently keeps the total
within 3/2 of the basis when the shares sum to 1. -/
theorem alloc_bound (c1 c2 c3 b : ℚ) (h : c1 + c2 + c3 = 1) :
    |((eround (c1 * b) : ℚ) + (eround (c2 * b) : ℚ) + (eround (c3 * b) : ℚ) - b)| ≤ 3/2 := by
  have h1 := abs_eround_sub_le (c1 * b)
  have h2 := abs_eround_sub_le (c2 * b)
  have h3 := abs_eround_sub_le (c3 * b)
  have hb : c1 * b + c2 * b + c3 * b = b := by
    rw [← add_mul, ← add_mul, h, one_mul]
  have key : (eround (c1 * b) : ℚ) + (eround (c2 * b) : ℚ) + (eround (c3 * b) : ℚ) - b
      = ((eround (c1 * b) : ℚ) - c1 * b) + ((eround (c2 * b) : ℚ) - c2 * b)
        + ((eround (c3 * b) : ℚ) - c3 * b) := by
    linear_combination hb
  rw [key]
  have t1 := abs_add (((eround (c1 * b) : ℚ) - c1 * b) + ((eround (c2 * b) : ℚ) - c2 * b))
    ((eround (c3 * b) : ℚ) - c3 * b)
  have t2 := abs_add ((eround (c1 * b) : ℚ) - c1 * b) ((eround (c2 * b) : ℚ) - c2 * b)
  linarith

/-- The Section-2 allocation shape of `compute_residential` (shares of
`B16` applied to the caller's basis, each rounded independently). -/
theorem share_alloc_bound (b13 b14 b15 : ℤ) (b12 : ℚ)
    (h : 0 < b13 + b14 + b15) :
    |((eround ((if 0 < b13 + b14 + b15 then (b13 : ℚ) / ((b13 + b14 + b15 : ℤ) : ℚ) else 0) * b12) : ℚ)
      + (eround ((if 0 < b13 + b14 + b15 then (b14 : ℚ) / ((b13 + b14 + b15 : ℤ) : ℚ) else 0) * b12) : ℚ)
      + (eround ((if 0 < b13 + b14 + b15 then (b15 : ℚ) / ((b13 + b14 + b15 : ℤ) : ℚ) else 0) * b12) : ℚ)
      - b12)| ≤ 3/2 := by
  rw [if_pos h, if_pos h, if_pos h]
  have hS : ((b13 + b14 + b15 : ℤ) : ℚ) ≠ 0 := by
    exact_mod_cast ne_of_gt h
  have hsum : (b13 : ℚ) / ((b13 + b14 + b15 : ℤ) : ℚ)
      + (b14 : ℚ) / ((b13 + b14 + b15 : ℤ) : ℚ)
      + (b15 : ℚ) / ((b13 + b14 + b15 : ℤ) : ℚ) = 1 := by
    rw [div_add_div_same, div_add_div_same]
    rw [show ((b13 : ℚ) + b14 + b15) = ((b13 + b14 + b15 : ℤ) : ℚ) by push_cast; ring]
    exact div_self hS
  exact alloc_bound _ _ _ _ hsum

theorem apply_tier_logic_b12 (i : ResInputs) : (apply_tier_logic i).1.b12 = i.b12 := by
  simp only [apply_tier_logic]
  split
  · rfl
  · split <;> rfl

set_option maxHeartbeats 2000000 in
/-- C3 (amended): the three class allocations of `compute_residential`
(building `D13`, 5-year `D14`, 15-year `D15`) are each
`round(share × basis)` rounded independently; when the modeled bucket
total `B16` is positive, their sum differs from the caller-supplied
total project basis `B12` by at most 3/2 (so by at most one dollar for
an integer basis).  No post-rounding residual is absorbed anywhere, so
exact equality with the basis does NOT hold in general (see the
counterexample). -/
theorem c3_allocation_bound (i : ResInputs) (t : ℤ)
    (h : 0 < (compute_residential i t).B16) :
    |((((compute_residential i t).D13 + (compute_residential i t).D14
        + (compute_residential i t).D15 : ℤ) : ℚ) - i.b12)| ≤ 3/2 := by
  rw [← apply_tier_logic_b12 i]
  simp only [compute_residential] at h ⊢
  rw [Int.cast_add, Int.cast_add]
  exact share_alloc_bound _ _ _ _ h

/-- C3 counterexample: a residential input with modeled buckets
`B13 = B14 = 21638`, `B15 = 0` (so `B16 = 43276 > 0`) and caller basis
`B12 = 101` allocates `D13 = D14 = round(50.5) = 51`, `D15 = 0`, summing
to 102 ≠ 101, so the per-class dollar allocations do not sum to the
caller-supplied basis exactly. -/
theorem c3_exact_allocation_cex :
    (compute_residential ⟨43276, 0, 0, 0, 1, 0, 0, 0, 0, 0, 0, 101, 1, "SFR$", none, none⟩ 2025).B16 = 43276
      ∧ (compute_residential ⟨43276, 0, 0, 0, 1, 0, 0, 0, 0, 0, 0, 101, 1, "SFR$", none, none⟩ 2025).D13
        + (compute_residential ⟨43276, 0, 0, 0, 1, 0, 0, 0, 0, 0, 0, 101, 1, "SFR$", none, none⟩ 2025).D14
        + (compute_residential ⟨43276, 0, 0, 0, 1, 0, 0, 0, 0, 0, 0, 101, 1, "SFR$", none, none⟩ 2025).D15 = 102
      ∧ (102 : ℤ) ≠ 101 := by
  have htl : apply_tier_logic ⟨43276, 0, 0, 0, 1, 0, 0, 0, 0, 0, 0, 101, 1, "SFR$", none, none⟩
      = (⟨43276, 0, 0, 0, 1, 0, 0, 0, 0, 0, 0, 101, 1, "SFR$", none, none⟩, "SFR$", "SFR") := by
    decide
  have hr : TIER_RATES "SFR$" = some ⟨21638, 257, 283, 4, 15300⟩ := by decide
  refine ⟨?_, ?_, by decide⟩
  · simp only [compute_residential, htl, residential_lookback, hr]
    norm_num [clamp01, eround]
  · simp only [compute_residential, htl, residential_lookback, hr]
    norm_num [clamp01, eround]

theorem c3_allocation_bound_witness :
    0 < (compute_residential ⟨43276, 0, 0, 0, 1, 0, 0, 0, 0, 0, 0, 101, 1, "SFR$", none, none⟩ 2025).B16
      ∧ |((((compute_residential ⟨43276, 0, 0, 0, 1, 0, 0, 0, 0, 0, 0, 101, 1, "SFR$", none, none⟩ 2025).D13
          + (compute_residential ⟨43276, 0, 0, 0, 1, 0, 0, 0, 0, 0, 0, 101, 1, "SFR$", none, none⟩ 2025).D14
          + (compute_residential ⟨43276, 0, 0, 0, 1, 0, 0, 0, 0, 0, 0, 101, 1, "SFR$", none, none⟩ 2025).D15 : ℤ) : ℚ)
          - (101 : ℚ))| ≤ 3/2 := by
  have htl : apply_tier_logic ⟨43276, 0, 0, 0, 1, 0, 0, 0, 0, 0, 0, 101, 1, "SFR$", none, none⟩
      = (⟨43276, 0, 0, 0, 1, 0, 0, 0, 0, 0, 0, 101, 1, "SFR$", none, none⟩, "SFR$", "SFR") := by
    decide
  have hr : TIER_RATES "SFR$" = some ⟨21638, 257, 283, 4, 15300⟩ := by decide
  have hB : (compute_residential ⟨43276, 0, 0, 0, 1, 0, 0, 0, 0, 0, 0, 101, 1, "SFR$", none, none⟩ 2025).B16
      = 43276 := by
    simp only [compute_residential, htl, residential_lookback, hr]
    norm_num [clamp01, eround]
  constructor
  · rw [hB]
    norm_num
  · have hmain := c3_allocation_bound
      ⟨43276, 0, 0, 0, 1, 0, 0, 0, 0, 0, 0, 101, 1, "SFR$", none, none⟩ 2025
      (by rw [hB]; norm_num)
    simpa using hmain

/-- C9 (amended): a tier code that normalizes to one of the three
RECOGNIZED MFR tiers (`MFR$`, `MFR$$`, `MFR$$$`) is mapped to the SFR
tier with the same suffix — a key of `TIER_RATES` — with the
national-average $/sq-ft constant overridden to the fixed value 200; any
other code that is not an SFR tier key (including other "MFR"-prefixed
strings such as "MFRX") falls back to the cheapest tier `SFR$` with NO
override of the constant. -/
theorem c9_tier_mapping (i : ResInputs) :
    (pyUpper (pyStrip i.b31) ∈ MFR_TIERS →
        (apply_tier_logic i).1.b31 = "SFR" ++ pyDrop (pyUpper (pyStrip i.b31)) 3
        ∧ (apply_tier_logic i).1.b28 = 200
        ∧ (apply_tier_logic i).2.2 = "MFR"
        ∧ (TIER_RATES (apply_tier_logic i).1.b31).isSome = true)
    ∧ (pyUpper (pyStrip i.b31) ∉ MFR_TIERS →
        (TIER_RATES (pyUpper (pyStrip i.b31))).isNone = true →
        (apply_tier_logic i).1.b31 = "SFR$"
        ∧ (apply_tier_logic i).1.b28 = i.b28
        ∧ (apply_tier_logic i).2.2 = "SFR") := by
  constructor
  · intro hm
    simp only [apply_tier_logic]
    rw [if_pos hm]
    refine ⟨rfl, rfl, rfl, ?_⟩
    have hm' : pyUpper (pyStrip i.b31) = "MFR$" ∨ pyUpper (pyStrip i.b31) = "MFR$$"
        ∨ pyUpper (pyStrip i.b31) = "MFR$$$" := by
      simpa [MFR_TIERS] using hm
    rcases hm' with h | h | h
    · rw [h]
      exact (by decide : (TIER_RATES ("SFR" ++ pyDrop "MFR$" 3)).isSome = true)
    · rw [h]
      exact (by decide : (TIER_RATES ("SFR" ++ pyDrop "MFR$$" 3)).isSome = true)
    · rw [h]
      exact (by decide : (TIER_RATES ("SFR" ++ pyDrop "MFR$$$" 3)).isSome = true)
  · intro hm hn
    simp only [apply_tier_logic]
    rw [if_neg hm, if_pos hn]
    exact ⟨rfl, rfl, rfl⟩

/-- C9 counterexample: "MFRX" is prefixed "MFR" but is not one of the
recognized MFR tiers; the code routes it through the unrecognized-code
fallback: tier `SFR$` (not an "equivalent SFR table" `SFRX`) and NO
override of the national-average constant (it stays 130, not 200).  So
"any code prefixed MFR gets the SFR-equivalent table plus the override"
is false as stated. -/
theorem c9_mfr_prefix_cex :
    pyUpper (pyStrip ("MFRX" : String)) = "MFRX"
      ∧ List.take 3 ("MFRX".data) = "MFR".data
      ∧ (apply_tier_logic
          ⟨2000, 0.22, 3, 2, 1, 1, 0.6, 0.1, 0, 0, 0, 300000, 130, "MFRX", none, none⟩).1.b31 = "SFR$"
      ∧ (apply_tier_logic
          ⟨2000, 0.22, 3, 2, 1, 1, 0.6, 0.1, 0, 0, 0, 300000, 130, "MFRX", none, none⟩).1.b28 = 130
      ∧ (130 : ℚ) ≠ 200 := by
  refine ⟨by decide, by decide, by decide, by decide, by norm_num⟩

theorem c9_tier_mapping_witness :
    (pyUpper (pyStrip ((" mfr$$ ") : String)) ∈ MFR_TIERS)
      ∧ ((apply_tier_logic
            ⟨2000, 0.22, 3, 2, 1, 1, 0.6, 0.1, 0, 0, 0, 300000, 130, " mfr$$ ", none, none⟩).1.b31
          = "SFR" ++ pyDrop (pyUpper (pyStrip ((" mfr$$ ") : String))) 3
        ∧ (apply_tier_logic
            ⟨2000, 0.22, 3, 2, 1, 1, 0.6, 0.1, 0, 0, 0, 300000, 130, " mfr$$ ", none, none⟩).1.b28 = 200
        ∧ (apply_tier_logic
            ⟨2000, 0.22, 3, 2, 1, 1, 0.6, 0.1, 0, 0, 0, 300000, 130, " mfr$$ ", none, none⟩).2.2 = "MFR"
        ∧ (TIER_RATES (apply_tier_logic
            ⟨2000, 0.22, 3, 2, 1, 1, 0.6, 0.1, 0, 0, 0, 300000, 130, " mfr$$ ", none, none⟩).1.b31).isSome
          = true) :=
  ⟨by decide,
    (c9_tier_mapping
      ⟨2000, 0.22, 3, 2, 1, 1, 0.6, 0.1, 0, 0, 0, 300000, 130, " mfr$$ ", none, none⟩).1 (by decide)⟩

/-- Closed form of the rows of `compute_lookback` on the non-degenerate
path. -/
theorem compute_lookback_rows_pos (basis : ℚ) (d : SDate) (study : ℤ)
    (kind : String) (ir : Bool) (h : ¬(eround basis ≤ 0 ∨ study < d.year)) :
    (compute_lookback basis d study kind ir).year_by_year
      = (List.range (min (study + 1 - d.year).toNat
            (if kind = "building" then (if ir then 29 else 40)
             else if kind = "5" then 6 else if kind = "7" then 8
             else if kind = "15" then 16 else 0))).map
          (lbRow
            (if kind = "building" then eround basis
             else eround basis - eround ((eround basis : ℚ) * get_bonus_rate d))
            (fun yi => if kind = "building" then building_rate yi d.month ir
                       else macrs_rate kind yi)
            d.year 1
            (if kind = "building" then 0
             else eround ((eround basis : ℚ) * get_bonus_rate d))) := by
  simp only [compute_lookback, if_neg h]
  rw [lbLoop_fst]
  rw [Nat.add_sub_cancel]
  by_cases hb : kind = "building" <;> simp [hb]

theorem compute_lookback_bonus_pos (basis : ℚ) (d : SDate) (study : ℤ)
    (kind : String) (ir : Bool) (h : ¬(eround basis ≤ 0 ∨ study < d.year)) :
    (compute_lookback basis d study kind ir).bonus_amount
      = (if kind = "building" then 0
         else eround ((eround basis : ℚ) * get_bonus_rate d)) := by
  simp only [compute_lookback, if_neg h]
  by_cases hb : kind = "building" <;> simp [hb]

theorem compute_lookback_cum_pos (basis : ℚ) (d : SDate) (study : ℤ)
    (kind : String) (ir : Bool) (h : ¬(eround basis ≤ 0 ∨ study < d.year)) :
    (compute_lookback basis d study kind ir).cumulative_depreciation
      = (if kind = "building" then 0
         else eround ((eround basis : ℚ) * get_bonus_rate d))
        + sumDep
            (if kind = "building" then eround basis
             else eround basis - eround ((eround basis : ℚ) * get_bonus_rate d))
            (fun yi => if kind = "building" then building_rate yi d.month ir
                       else macrs_rate kind yi)
            1
            (min (study + 1 - d.year).toNat
              (if kind = "building" then (if ir then 29 else 40)
               else if kind = "5" then 6 else if kind = "7" then 8
               else if kind = "15" then 16 else 0)) := by
  simp only [compute_lookback, if_neg h]
  rw [lbLoop_cum]
  rw [Nat.add_sub_cancel]
  by_cases hb : kind = "building" <;> simp [hb]

/-- Generic form of the C5 bounds: row count at most the class table
length, and every row's calendar year within that length of the
in-service year. -/
theorem lookback_len_le (basis : ℚ) (d : SDate) (study : ℤ) (kind : String)
    (ir : Bool) (maxB : ℕ)
    (hk : (if kind = "building" then (if ir then 29 else 40)
           else if kind = "5" then 6 else if kind = "7" then 8
           else if kind = "15" then 16 else 0) = maxB) :
    (compute_lookback basis d study kind ir).year_by_year.length ≤ maxB
    ∧ ∀ r ∈ (compute_lookback basis d study kind ir).year_by_year,
        r.calendar_year < d.year + (maxB : ℤ) := by
  by_cases h : eround basis ≤ 0 ∨ study < d.year
  · constructor
    · simp [compute_lookback, if_pos h]
    · intro r hr
      simp [compute_lookback, if_pos h] at hr
  · rw [compute_lookback_rows_pos basis d study kind ir h, hk]
    constructor
    · rw [List.length_map, List.length_range]
      exact min_le_right _ _
    · intro r hr
      rw [List.mem_map] at hr
      obtain ⟨k, hk2, rfl⟩ := hr
      rw [List.mem_range] at hk2
      have hkB : k < maxB := lt_of_lt_of_le hk2 (min_le_right _ _)
      simp only [lbRow]
      omega

/-- C5: the row sequence of `compute_lookback` never exceeds the class's
maximum table length — at most 6 rows for a 5-year asset, 8 for 7-year,
16 for 15-year, 29 for a 27.5-year residential building, 40 for a
39-year nonresidential building — and no row's calendar year lies past
that length measured from the in-service year. -/
theorem c5_schedule_bounded (basis : ℚ) (d : SDate) (study : ℤ) (ir : Bool) :
    (((compute_lookback basis d study "5" ir).year_by_year.length ≤ 6)
      ∧ ∀ r ∈ (compute_lookback basis d study "5" ir).year_by_year,
          r.calendar_year < d.year + 6)
    ∧ (((compute_lookback basis d study "7" ir).year_by_year.length ≤ 8)
      ∧ ∀ r ∈ (compute_lookback basis d study "7" ir).year_by_year,
          r.calendar_year < d.year + 8)
    ∧ (((compute_lookback basis d study "15" ir).year_by_year.length ≤ 16)
      ∧ ∀ r ∈ (compute_lookback basis d study "15" ir).year_by_year,
          r.calendar_year < d.year + 16)
    ∧ (((compute_lookback basis d study "building" true).year_by_year.length ≤ 29)
      ∧ ∀ r ∈ (compute_lookback basis d study "building" true).year_by_year,
          r.calendar_year < d.year + 29)
    ∧ (((compute_lookback basis d study "building" false).year_by_year.length ≤ 40)
      ∧ ∀ r ∈ (compute_lookback basis d study "building" false).year_by_year,
          r.calendar_year < d.year + 40) := by
  refine ⟨?_, ?_, ?_, ?_, ?_⟩
  · exact lookback_len_le basis d study "5" ir 6
      (by rw [if_neg (by decide : ¬("5" : String) = "building"), if_pos rfl])
  · exact lookback_len_le basis d study "7" ir 8
      (by rw [if_neg (by decide : ¬("7" : String) = "building"),
        if_neg (by decide : ¬("7" : String) = "5"), if_pos rfl])
  · exact lookback_len_le basis d study "15" ir 16
      (by rw [if_neg (by decide : ¬("15" : String) = "building"),
        if_neg (by decide : ¬("15" : String) = "5"),
        if_neg (by decide : ¬("15" : String) = "7"), if_pos rfl])
  · exact lookback_len_le basis d study "building" true 29 (by rw [if_pos rfl]; decide)
  · exact lookback_len_le basis d study "building" false 40 (by rw [if_pos rfl]; decide)

theorem c5_schedule_bounded_witness :
    ((⟨2020, 1, 1/5, 4, 84⟩ : LookbackYearRow)
        ∈ (compute_lookback 100 ⟨2020, 1, 1⟩ 2020 "5" false).year_by_year)
      ∧ (⟨2020, 1, 1/5, 4, 84⟩ : LookbackYearRow).calendar_year
          < (⟨2020, 1, 1⟩ : SDate).year + 6 := by
  have h1 : ¬("5" : String) = "building" := by decide
  have hrows : (compute_lookback 100 ⟨2020, 1, 1⟩ 2020 "5" false).year_by_year
      = [⟨2020, 1, 1/5, 4, 84⟩] := by
    simp only [compute_lookback, lbLoop]
    norm_num [eround, get_bonus_rate, macrs_rate, MACRS_5_YEAR, h1]
  have hmem : (⟨2020, 1, 1/5, 4, 84⟩ : LookbackYearRow)
      ∈ (compute_lookback 100 ⟨2020, 1, 1⟩ 2020 "5" false).year_by_year := by
    rw [hrows]
    exact List.mem_singleton_self _
  exact ⟨hmem, (c5_schedule_bounded 100 ⟨2020, 1, 1⟩ 2020 false).1.2 _ hmem⟩

theorem get_map_range_lbRow (depB : ℤ) (rateF : ℕ → ℚ) (cal : ℤ) (yi : ℕ)
    (cum : ℤ) (n k : ℕ) (r : LookbackYearRow)
    (h : ((List.range n).map (lbRow depB rateF cal yi cum)).get? k = some r) :
    k < n ∧ r = lbRow depB rateF cal yi cum k := by
  have hk : k < n := by
    by_contra hk
    rw [List.get?_eq_none.mpr (by rw [List.length_map, List.length_range]; omega)] at h
    exact Option.noConfusion h
  refine ⟨hk, ?_⟩
  rw [List.get?_map, List.get?_range hk] at h
  exact (Option.some.inj h).symm

theorem getLast_map_range_lbRow (depB : ℤ) (rateF : ℕ → ℚ) (cal : ℤ) (yi : ℕ)
    (cum : ℤ) (n : ℕ) :
    ((((List.range n).map (lbRow depB rateF cal yi cum)).getLast?).map
        (fun row => row.cumulative)).getD cum = cum + sumDep depB rateF yi n := by
  cases n with
  | zero => simp [sumDep]
  | succ m =>
    rw [List.range_succ, List.map_append]
    simp [List.getLast?_concat, lbRow]

/-- C10: on the active path (`basis > 0`, `studyYear ≥` in-service year)
the rows of `compute_lookback` have consecutive calendar years starting
at the in-service year, each row's recovery-table year index is its
1-based position, each row's cumulative equals the bonus amount plus the
depreciation of that row and all earlier rows, and the result's
cumulative-depreciation field equals the last row's cumulative (or the
bonus amount when there are no rows). -/
theorem c10_row_invariants (basis : ℚ) (d : SDate) (study : ℤ) (kind : String)
    (ir : Bool) (hb : 0 < basis) (hs : d.year ≤ study) :
    (∀ (k : ℕ) (r : LookbackYearRow),
        (compute_lookback basis d study kind ir).year_by_year.get? k = some r →
        r.calendar_year = d.year + (k : ℤ)
        ∧ r.depreciation_year = k + 1
        ∧ r.cumulative = (compute_lookback basis d study kind ir).bonus_amount
            + (((compute_lookback basis d study kind ir).year_by_year.take (k + 1)).map
                (fun row => row.depreciation)).sum)
    ∧ (compute_lookback basis d study kind ir).cumulative_depreciation
        = ((((compute_lookback basis d study kind ir).year_by_year.getLast?).map
            (fun row => row.cumulative)).getD
            (compute_lookback basis d study kind ir).bonus_amount) := by
  by_cases h : eround basis ≤ 0 ∨ study < d.year
  · constructor
    · intro k r hr
      rw [show (compute_lookback basis d study kind ir).year_by_year = [] from by
        simp [compute_lookback, if_pos h]] at hr
      rw [List.get?_eq_none.mpr (by simp)] at hr
      exact Option.noConfusion hr
    · simp [compute_lookback, if_pos h]
  · have hrows := compute_lookback_rows_pos basis d study kind ir h
    have hbonus := compute_lookback_bonus_pos basis d study kind ir h
    have hcum := compute_lookback_cum_pos basis d study kind ir h
    constructor
    · intro k r hr
      rw [hrows] at hr
      obtain ⟨hk, rfl⟩ := get_map_range_lbRow _ _ _ _ _ _ _ _ hr
      refine ⟨rfl, by simp [lbRow, Nat.add_comm], ?_⟩
      rw [hrows, hbonus]
      rw [← List.map_take, List.take_range, Nat.min_eq_left (Nat.succ_le_of_lt hk)]
      rw [List.map_map]
      rfl
    · rw [hrows, hbonus, hcum]
      exact (getLast_map_range_lbRow _ _ _ _ _ _).symm

theorem c10_row_invariants_witness :
    ((compute_lookback 1000 ⟨2020, 7, 1⟩ 2021 "5" false).year_by_year.get? 1
        = some ⟨2021, 2, 8/25, 64, 904⟩)
      ∧ ((⟨2021, 2, 8/25, 64, 904⟩ : LookbackYearRow).calendar_year
            = (⟨2020, 7, 1⟩ : SDate).year + ((1 : ℕ) : ℤ)
        ∧ (⟨2021, 2, 8/25, 64, 904⟩ : LookbackYearRow).depreciation_year = 1 + 1
        ∧ (⟨2021, 2, 8/25, 64, 904⟩ : LookbackYearRow).cumulative
            = (compute_lookback 1000 ⟨2020, 7, 1⟩ 2021 "5" false).bonus_amount
              + (((compute_lookback 1000 ⟨2020, 7, 1⟩ 2021 "5" false).year_by_year.take (1 + 1)).map
                  (fun row => row.depreciation)).sum) := by
  have h1 : ¬("5" : String) = "building" := by decide
  have hrows : (compute_lookback 1000 ⟨2020, 7, 1⟩ 2021 "5" false).year_by_year
      = [⟨2020, 1, 1/5, 40, 840⟩, ⟨2021, 2, 8/25, 64, 904⟩] := by
    simp only [compute_lookback, lbLoop]
    norm_num [eround, get_bonus_rate, macrs_rate, MACRS_5_YEAR, h1]
  have hget : (compute_lookback 1000 ⟨2020, 7, 1⟩ 2021 "5" false).year_by_year.get? 1
      = some ⟨2021, 2, 8/25, 64, 904⟩ := by
    rw [hrows]
    rfl
  exact ⟨hget,
    (c10_row_invariants 1000 ⟨2020, 7, 1⟩ 2021 "5" false (by norm_num) (by norm_num)).1
      1 ⟨2021, 2, 8/25, 64, 904⟩ hget⟩

/-- C4: per-calendar-year amounts of `compute_full_schedule` agree with
the rows of `compute_lookback` on the years up to the study-year cutoff,
with the bonus amount folded into year 1 of the full schedule (for
building classes the bonus amount is 0, so the fold is trivial): every
lookback row's calendar year is found in the full schedule with amount
`row.depreciation + (bonus if year 1)`, and every full-schedule entry at
or before the study year corresponds to a lookback row. -/
theorem c4_full_schedule_matches_lookback (basis : ℚ) (d : SDate) (study : ℤ)
    (kind : String) (ir : Bool) :
    (∀ r ∈ (compute_lookback basis d study kind ir).year_by_year,
        (compute_full_schedule basis d kind ir).lookup r.calendar_year
          = some (r.depreciation
              + (if r.depreciation_year = 1
                 then (compute_lookback basis d study kind ir).bonus_amount else 0)))
    ∧ (∀ p ∈ compute_full_schedule basis d kind ir, p.1 ≤ study →
        ∃ r ∈ (compute_lookback basis d study kind ir).year_by_year,
          r.calendar_year = p.1
          ∧ p.2 = r.depreciation
              + (if r.depreciation_year = 1
                 then (compute_lookback basis d study kind ir).bonus_amount else 0)) := by
  by_cases h0 : eround basis ≤ 0
  · have hfs : compute_full_schedule basis d kind ir = [] := by
      unfold compute_full_schedule
      rw [if_pos h0]
    have hlb : (compute_lookback basis d study kind ir).year_by_year = [] := by
      simp [compute_lookback, if_pos (Or.inl h0)]
    constructor
    · intro r hr
      rw [hlb] at hr
      exact absurd hr (List.not_mem_nil r)
    · intro p hp
      rw [hfs] at hp
      exact absurd hp (List.not_mem_nil p)
  · push_neg at h0
    by_cases hsy : study < d.year
    · have hlb : (compute_lookback basis d study kind ir).year_by_year = [] := by
        simp [compute_lookback, if_pos (Or.inr hsy)]
      constructor
      · intro r hr
        rw [hlb] at hr
        exact absurd hr (List.not_mem_nil r)
      · intro p hp hps
        exfalso
        have hle : d.year ≤ p.1 := by
          unfold compute_full_schedule at hp
          rw [if_neg (by omega)] at hp
          by_cases hb : kind = "building"
          · rw [if_pos hb, fsLoopB_eq] at hp
            rw [List.mem_map] at hp
            obtain ⟨k, _, rfl⟩ := hp
            show d.year ≤ d.year + (k : ℤ)
            omega
          · rw [if_neg hb] at hp
            dsimp only at hp
            by_cases hM : (if kind = "5" then 6 else if kind = "7" then 8
                else if kind = "15" then 16 else 0 : ℕ) = 0
            · rw [if_pos hM] at hp
              exact absurd hp (List.not_mem_nil p)
            · rw [if_neg hM, fsLoop_eq] at hp
              rw [List.mem_map] at hp
              obtain ⟨k, _, rfl⟩ := hp
              show d.year ≤ d.year + (k : ℤ)
              omega
        omega
    · push_neg at hsy
      have hnd : ¬(eround basis ≤ 0 ∨ study < d.year) := by
        rintro (h | h) <;> omega
      have hrows := compute_lookback_rows_pos basis d study kind ir hnd
      have hbonus := compute_lookback_bonus_pos basis d study kind ir hnd
      by_cases hb : kind = "building"
      · subst hb
        simp only [eq_self_iff_true, if_true] at hrows hbonus
        have hfs : compute_full_schedule basis d "building" ir
            = (List.range (if ir then 29 else 40)).map
                (fun (k : ℕ) => (d.year + (k : ℤ),
                  depAt (eround basis) (fun yi => building_rate yi d.month ir) (1 + k))) := by
          unfold compute_full_schedule
          rw [if_neg (by omega), if_pos rfl, fsLoopB_eq]
        constructor
        · intro r hr
          rw [hrows, List.mem_map] at hr
          obtain ⟨k, hk, rfl⟩ := hr
          rw [List.mem_range] at hk
          have hkM : k < (if ir then 29 else 40) := lt_of_lt_of_le hk (min_le_right _ _)
          rw [hbonus, hfs]
          rw [show (lbRow (eround basis) (fun yi => building_rate yi d.month ir) d.year 1 0 k).calendar_year
              = d.year + (k : ℤ) from rfl]
          rw [lookup_range_map _ _ _ _ hkM]
          simp [lbRow, ite_self]
        · intro p hp hps
          rw [hfs, List.mem_map] at hp
          obtain ⟨k, hkr, rfl⟩ := hp
          rw [List.mem_range] at hkr
          have hkf : k < (study + 1 - d.year).toNat := by
            have hky : d.year + (k : ℤ) ≤ study := hps
            omega
          refine ⟨lbRow (eround basis) (fun yi => building_rate yi d.month ir) d.year 1 0 k,
            ?_, rfl, ?_⟩
          · rw [hrows]
            exact List.mem_map_of_mem _ (List.mem_range.mpr (lt_min hkf hkr))
          · rw [hbonus]
            simp [lbRow, ite_self]
      · simp only [hb, if_false] at hrows hbonus
        by_cases hM : (if kind = "5" then 6 else if kind = "7" then 8
            else if kind = "15" then 16 else 0 : ℕ) = 0
        · have hlb2 : (compute_lookback basis d study kind ir).year_by_year = [] := by
            rw [hrows, hM]
            simp
          have hfs : compute_full_schedule basis d kind ir = [] := by
            unfold compute_full_schedule
            rw [if_neg (by omega), if_neg hb, if_pos hM]
          constructor
          · intro r hr
            rw [hlb2] at hr
            exact absurd hr (List.not_mem_nil r)
          · intro p hp
            rw [hfs] at hp
            exact absurd hp (List.not_mem_nil p)
        · have hfs : compute_full_schedule basis d kind ir
              = (List.range (if kind = "5" then 6 else if kind = "7" then 8
                  else if kind = "15" then 16 else 0)).map
                  (fun (k : ℕ) => (d.year + (k : ℤ),
                    if 1 + k = 1
                    then eround ((eround basis : ℚ) * get_bonus_rate d)
                      + depAt (eround basis - eround ((eround basis : ℚ) * get_bonus_rate d))
                          (fun yi => macrs_rate kind yi) (1 + k)
                    else depAt (eround basis - eround ((eround basis : ℚ) * get_bonus_rate d))
                          (fun yi => macrs_rate kind yi) (1 + k))) := by
            unfold compute_full_schedule
            rw [if_neg (by omega), if_neg hb, if_neg hM, fsLoop_eq]
          constructor
          · intro r hr
            rw [hrows, List.mem_map] at hr
            obtain ⟨k, hk, rfl⟩ := hr
            rw [List.mem_range] at hk
            have hkM : k < (if kind = "5" then 6 else if kind = "7" then 8
                else if kind = "15" then 16 else 0) := lt_of_lt_of_le hk (min_le_right _ _)
            rw [hbonus, hfs]
            rw [show (lbRow (eround basis - eround ((eround basis : ℚ) * get_bonus_rate d))
                (fun yi => macrs_rate kind yi) d.year 1
                (eround ((eround basis : ℚ) * get_bonus_rate d)) k).calendar_year
              = d.year + (k : ℤ) from rfl]
            rw [lookup_range_map _ _ _ _ hkM]
            cases k with
            | zero => simp [lbRow, add_comm]
            | succ j => simp [lbRow]
          · intro p hp hps
            rw [hfs, List.mem_map] at hp
            obtain ⟨k, hkr, rfl⟩ := hp
            rw [List.mem_range] at hkr
            have hkf : k < (study + 1 - d.year).toNat := by
              have hky : d.year + (k : ℤ) ≤ study := hps
              omega
            refine ⟨lbRow (eround basis - eround ((eround basis : ℚ) * get_bonus_rate d))
                (fun yi => macrs_rate kind yi) d.year 1
                (eround ((eround basis : ℚ) * get_bonus_rate d)) k, ?_, rfl, ?_⟩
            · rw [hrows]
              exact List.mem_map_of_mem _ (List.mem_range.mpr (lt_min hkf hkr))
            · rw [hbonus]
              cases k with
              | zero => simp [lbRow, add_comm]
              | succ j => simp [lbRow]

theorem c4_full_schedule_matches_lookback_witness :
    ((⟨2021, 2, 8/25, 64, 904⟩ : LookbackYearRow)
        ∈ (compute_lookback 1000 ⟨2020, 7, 1⟩ 2021 "5" false).year_by_year)
      ∧ (compute_full_schedule 1000 ⟨2020, 7, 1⟩ "5" false).lookup
          (⟨2021, 2, 8/25, 64, 904⟩ : LookbackYearRow).calendar_year
        = some ((⟨2021, 2, 8/25, 64, 904⟩ : LookbackYearRow).depreciation
            + (if (⟨2021, 2, 8/25, 64, 904⟩ : LookbackYearRow).depreciation_year = 1
               then (compute_lookback 1000 ⟨2020, 7, 1⟩ 2021 "5" false).bonus_amount
               else 0)) := by
  have h1 : ¬("5" : String) = "building" := by decide
  have hrows : (compute_lookback 1000 ⟨2020, 7, 1⟩ 2021 "5" false).year_by_year
      = [⟨2020, 1, 1/5, 40, 840⟩, ⟨2021, 2, 8/25, 64, 904⟩] := by
    simp only [compute_lookback, lbLoop]
    norm_num [eround, get_bonus_rate, macrs_rate, MACRS_5_YEAR, h1]
  have hmem : (⟨2021, 2, 8/25, 64, 904⟩ : LookbackYearRow)
      ∈ (compute_lookback 1000 ⟨2020, 7, 1⟩ 2021 "5" false).year_by_year := by
    rw [hrows]
    exact List.mem_cons_of_mem _ (List.mem_singleton_self _)
  exact ⟨hmem,
    (c4_full_schedule_matches_lookback 1000 ⟨2020, 7, 1⟩ 2021 "5" false).1 _ hmem⟩
